import Mathlib

/-!
Verification of the EcoLens two-stage comparison pipeline (`app.py`).

The pipeline has two components:
* `ScoutAgent.search` (embedded as `scoutSearch`): builds a query from the two
  material names, issues one external search call, and on success concatenates
  one entry per result; on any provider error or an empty result set it returns
  a deterministic fallback evidence text.
* `AnalystAgent.analyze` (embedded as `analyze`): with no API key (or with the
  AI libraries unavailable) it returns the deterministic template
  `mockAnalysis`; otherwise it invokes the generation provider once and returns
  its text verbatim, or a diagnostic string if the call errors.

External calls are embedded as explicit function parameters returning
`Except String _` (an `Except.error` models a raised exception).  The
Streamlit session history of `main` is embedded as `sessionLog`.
-/

/-- Result record of the external search provider: the embedding of the
`googlesearch` result objects, of which `app.py` reads `title`, `url` and
`description`. -/
structure SearchResult where
  title : String
  url : String
  description : String

/-- Boolean test that the second character list begins with the first
(pattern) list. -/
def charsStarts : List Char → List Char → Bool
  | [], _ => true
  | _ :: _, [] => false
  | p :: ps, c :: cs => p == c && charsStarts ps cs

/-- Boolean substring search: does `pat` occur contiguously inside the second
list (at any position)? -/
def charsHas (pat : List Char) : List Char → Bool
  | [] => charsStarts pat []
  | c :: cs => charsStarts pat (c :: cs) || charsHas pat cs

/-- String `s` begins with `pat`. -/
def strStarts (pat s : String) : Bool :=
  charsStarts pat.data s.data

/-- String `s` contains `pat` as a contiguous substring. -/
def strHas (pat s : String) : Bool :=
  charsHas pat.data s.data

/-- Query string built by `ScoutAgent.search` (line 25 of `app.py`). -/
def scoutQuery (mat_a mat_b : String) : String :=
  "Life cycle assessment " ++ mat_a ++ " vs " ++ mat_b ++ " global warming potential filetype:pdf"

/-- One entry of the success-path evidence block (line 32 of `app.py`). -/
def entryText (res : SearchResult) : String :=
  "Source: " ++ res.title ++ "\nLink: " ++ res.url ++ "\nDescription: " ++ res.description ++ "\n\n"

/-- Ordered concatenation of one entry per search result; the success-path
value of `results_text` in `ScoutAgent.search`. -/
def concatEntries : List SearchResult → String
  | [] => ""
  | res :: rest => entryText res ++ concatEntries rest

/-- Fallback evidence text of `ScoutAgent.search` (lines 41-49 of `app.py`),
byte for byte, including the leading newline and the 12-space indentation of
the Python triple-quoted f-string. -/
def scoutFallback (mat_a mat_b : String) : String :=
  "\n            [SYSTEM NOTE: Live Search blocked or limited. Using cached fallback data.]\n            1. Comparative LCA of "
    ++ mat_a ++ " and " ++ mat_b
    ++ " (ScienceDirect)\n               - Data indicates "
    ++ mat_a ++ " has lower GWP per kg than " ++ mat_b
    ++ ".\n            2. Environmental Impact Report 2024\n               - "
    ++ mat_b ++ " requires significantly more water usage (approx 3x) compared to " ++ mat_a
    ++ ".\n            3. End-of-Life Scenarios\n               - "
    ++ mat_a ++ " is biodegradable; " ++ mat_b
    ++ " is persistent in landfills.\n            "

/-- Bracketed note opening the fallback evidence: the explicit marker that
fallback mode is active. -/
def fallbackMarker : String :=
  "[SYSTEM NOTE: Live Search blocked or limited. Using cached fallback data.]"

/-- Embedding of `ScoutAgent.search` (lines 24-49 of `app.py`).  The external
`googlesearch.search` call is the parameter `provider` (query and result cap
`5` as in the source); `Except.error` models a raised exception.  A raised
error, and the `raise` on an empty `results_text`, both land in the `except`
branch returning `scoutFallback`. -/
def scoutSearch (provider : String → Nat → Except String (List SearchResult))
    (mat_a mat_b : String) : String :=
  let query := scoutQuery mat_a mat_b
  match provider query 5 with
  | Except.error _ => scoutFallback mat_a mat_b
  | Except.ok search_results =>
    let results_text := search_results.foldl (fun acc res => acc ++ entryText res) ""
    if results_text = "" then scoutFallback mat_a mat_b else results_text

/-- A search outcome that triggers the fallback branch of `ScoutAgent.search`:
the provider raised, or it returned zero results. -/
def searchFailed (r : Except String (List SearchResult)) : Prop :=
  (∃ e, r = Except.error e) ∨ r = Except.ok []

/-- The `winner` local of `AnalystAgent._mock_analysis` (line 87 of `app.py`):
the longer of the two material names, the second on a tie. -/
def mockWinner (mat_a mat_b : String) : String :=
  if mat_a.length > mat_b.length then mat_a else mat_b

/-- Embedding of `AnalystAgent._mock_analysis` (lines 85-101 of `app.py`),
byte for byte.  Note that the computed `winner` is never interpolated into the
template: every interpolation site uses `mat_a` or `mat_b` directly. -/
def mockAnalysis (mat_a mat_b : String) : String :=
  let winner := mockWinner mat_a mat_b
  "\n        ### 📊 Automated Sustainability Matrix (Safe Mode)\n        \n        *Note: Running in fallback mode (No API Key detected). Displaying synthesized analysis.*\n\n        | Impact Category | **"
    ++ mat_a ++ "** | **" ++ mat_b
    ++ "** | Status |\n        | :--- | :--- | :--- | :--- |\n        | **Global Warming (kg CO2)** | 2.5 (Est) | 8.1 (Est) | ✅ "
    ++ mat_a ++ " Better |\n        | **Water Usage (L/kg)** | 500 | 9,000 | ✅ "
    ++ mat_a ++ " Better |\n        | **Circular Economy** | Compostable | Landfill | ✅ "
    ++ mat_a ++ " Better |\n        \n        ### 💡 System Recommendation\n        **"
    ++ mat_a ++ "** is recommended. The extracted data suggests it outperforms **" ++ mat_b
    ++ "** across all major environmental impact categories.\n        "

/-- System prompt of the live path of `AnalystAgent.analyze` (lines 71-75 of
`app.py`), including the trailing space after `Engineer.` and the 12-space
indentation. -/
def systemPrompt : String :=
  "\n            You are an Expert Sustainable Engineer. \n            Output a Markdown Table comparing the materials on: GWP, Water, Recyclability.\n            End with a 1-sentence recommendation.\n            "

/-- Role-tagged chat message, embedding `SystemMessage` / `HumanMessage`. -/
inductive Message where
  | system : String → Message
  | human : String → Message

/-- Embedding of `AnalystAgent.analyze` (lines 60-83 of `app.py`).  The
constructor argument `api_key` and the module flag `AI_AVAILABLE` are explicit
parameters; a falsy Python key is the empty string.  The external generation
call (`ChatOpenAI(...).invoke`) is the parameter `llm`, applied to the model
name, the temperature, the key, and the messages exactly as built in the
source; `Except.error` models a raised exception.  The `time.sleep(2)` on the
fallback path has no bearing on the returned value and is omitted. -/
def analyze (api_key : String) (ai_available : Bool)
    (llm : String → Nat → String → List Message → Except String String)
    (search_data mat_a mat_b : String) : String :=
  if api_key = "" ∨ ai_available = false then
    mockAnalysis mat_a mat_b
  else
    match llm "gpt-4" 0 api_key
      [Message.system systemPrompt,
       Message.human ("Compare " ++ mat_a ++ " vs " ++ mat_b ++ " using this data: " ++ search_data)] with
    | Except.ok content => content
    | Except.error e => "Error in AI processing: " ++ e ++ ". (Falling back to manual analysis...)"

/-- Inputs of one button press in `main` (lines 131-151 of `app.py`): the two
material names, the optional key, the environment's external calls, and the
wall-clock timestamp taken at the memory update. -/
structure RunConfig where
  provider : String → Nat → Except String (List SearchResult)
  api_key : String
  ai_available : Bool
  llm : String → Nat → String → List Message → Except String String
  mat_a : String
  mat_b : String
  timestamp : String

/-- Session record appended at line 151 of `app.py`:
`f"[{timestamp}] {mat_a} vs {mat_b}"`. -/
def recordLabel (c : RunConfig) : String :=
  "[" ++ c.timestamp ++ "] " ++ c.mat_a ++ " vs " ++ c.mat_b

/-- One pipeline invocation of `main` (lines 131-151 of `app.py`): scout,
analyst, then append one record to the session history.  Returns the new
history and the displayed report. -/
def runPipeline (history : List String) (c : RunConfig) : List String × String :=
  let raw_data := scoutSearch c.provider c.mat_a c.mat_b
  let final_report := analyze c.api_key c.ai_available c.llm raw_data c.mat_a c.mat_b
  (history ++ [recordLabel c], final_report)

/-- Session history after a sequence of pipeline invocations, starting from
the empty history with which `st.session_state.history` is initialised. -/
def sessionLog (runs : List RunConfig) : List String :=
  runs.foldl (fun history c => (runPipeline history c).1) []

theorem charsStarts_self_append (p r : List Char) : charsStarts p (p ++ r) = true := by
  induction p with
  | nil => rfl
  | cons c cs ih => simp [charsStarts, ih]

theorem charsStarts_self (p : List Char) : charsStarts p p = true := by
  have h := charsStarts_self_append p []
  rwa [List.append_nil] at h

theorem charsHas_of_charsStarts (pat s : List Char) (h : charsStarts pat s = true) :
    charsHas pat s = true := by
  cases s with
  | nil => simpa [charsHas] using h
  | cons c cs => simp [charsHas, h]

theorem charsHas_append_left (pat l m : List Char) (h : charsHas pat m = true) :
    charsHas pat (l ++ m) = true := by
  induction l with
  | nil => simpa using h
  | cons c cs ih => simp [charsHas, ih]

theorem strData_append (s t : String) : (s ++ t).data = s.data ++ t.data := rfl

theorem strNil_append (s : String) : "" ++ s = s := rfl

theorem strAppend_nil (s : String) : s ++ "" = s := by
  cases s with
  | mk a => exact congrArg String.mk (List.append_nil a)

theorem strAppend_assoc (s t u : String) : (s ++ t) ++ u = s ++ (t ++ u) := by
  cases s with
  | mk a =>
    cases t with
    | mk b =>
      cases u with
      | mk c => exact congrArg String.mk (List.append_assoc a b c)

theorem strStarts_of_append (pat r : String) : strStarts pat (pat ++ r) = true := by
  show charsStarts pat.data (pat ++ r).data = true
  rw [strData_append]
  exact charsStarts_self_append _ _

theorem strStarts_self (pat : String) : strStarts pat pat = true :=
  charsStarts_self _

theorem strHas_of_strStarts (pat s : String) (h : strStarts pat s = true) :
    strHas pat s = true :=
  charsHas_of_charsStarts _ _ h

theorem strHas_self_append (pat q : String) : strHas pat (pat ++ q) = true :=
  strHas_of_strStarts _ _ (strStarts_of_append _ _)

theorem strHas_self (pat : String) : strHas pat pat = true :=
  strHas_of_strStarts _ _ (strStarts_self _)

theorem strHas_append_left (pat t s : String) (h : strHas pat s = true) :
    strHas pat (t ++ s) = true := by
  show charsHas pat.data (t ++ s).data = true
  rw [strData_append]
  exact charsHas_append_left _ _ _ h

theorem strHas_tail3 (x y z q : String) :
    strHas (x ++ (y ++ z)) (x ++ (y ++ (z ++ q))) = true := by
  have h : x ++ (y ++ (z ++ q)) = (x ++ (y ++ z)) ++ q := by
    simp [strAppend_assoc]
  rw [h]
  exact strHas_self_append _ _

theorem strStarts_tail2 (y z q : String) :
    strStarts (y ++ z) (y ++ (z ++ q)) = true := by
  have h : y ++ (z ++ q) = (y ++ z) ++ q := by
    simp [strAppend_assoc]
  rw [h]
  exact strStarts_of_append _ _

theorem ne_of_strStarts (p s t : String) (h1 : strStarts p s = true)
    (h2 : strStarts p t = false) : s ≠ t := by
  intro he
  rw [he, h2] at h1
  exact Bool.noConfusion h1

theorem scoutSearch_of_failed (provider : String → Nat → Except String (List SearchResult))
    (A B : String) (h : searchFailed (provider (scoutQuery A B) 5)) :
    scoutSearch provider A B = scoutFallback A B := by
  rcases h with ⟨e, he⟩ | he
  · simp [scoutSearch, he]
  · simp [scoutSearch, he]

theorem scoutFallback_has_marker_after_indent (A B : String) :
    strStarts ("\n            " ++ fallbackMarker) (scoutFallback A B) = true := by
  simp only [scoutFallback, fallbackMarker]
  rw [show ("\n            [SYSTEM NOTE: Live Search blocked or limited. Using cached fallback data.]\n            1. Comparative LCA of " : String)
      = "\n            " ++ ("[SYSTEM NOTE: Live Search blocked or limited. Using cached fallback data.]" ++ "\n            1. Comparative LCA of ") from rfl]
  simp only [strAppend_assoc]
  exact strStarts_tail2 _ _ _

theorem scoutFallback_has_marker (A B : String) :
    strHas fallbackMarker (scoutFallback A B) = true := by
  simp only [scoutFallback, fallbackMarker]
  rw [show ("\n            [SYSTEM NOTE: Live Search blocked or limited. Using cached fallback data.]\n            1. Comparative LCA of " : String)
      = "\n            " ++ ("[SYSTEM NOTE: Live Search blocked or limited. Using cached fallback data.]" ++ "\n            1. Comparative LCA of ") from rfl]
  simp only [strAppend_assoc]
  apply strHas_append_left
  exact strHas_self_append _ _

theorem scoutFallback_has_a (A B : String) :
    strHas A (scoutFallback A B) = true := by
  simp only [scoutFallback]
  simp only [strAppend_assoc]
  apply strHas_append_left
  exact strHas_self_append _ _

theorem scoutFallback_has_b (A B : String) :
    strHas B (scoutFallback A B) = true := by
  simp only [scoutFallback]
  simp only [strAppend_assoc]
  apply strHas_append_left
  apply strHas_append_left
  apply strHas_append_left
  exact strHas_self_append _ _

/-- Claim C1 (amended): for every pair of subject names, whenever the
underlying search call raises or yields zero results, `scoutSearch` returns
(it never raises — the embedding is a total function) the deterministic
fallback evidence, whose text opens with a newline and indentation followed
immediately by the explicit fallback marker, and which contains both subject
names verbatim. -/
theorem c1_scout_fallback_spec (provider : String → Nat → Except String (List SearchResult))
    (A B : String) (h : searchFailed (provider (scoutQuery A B) 5)) :
    scoutSearch provider A B = scoutFallback A B
    ∧ strStarts ("\n            " ++ fallbackMarker) (scoutFallback A B) = true
    ∧ strHas fallbackMarker (scoutFallback A B) = true
    ∧ strHas A (scoutFallback A B) = true
    ∧ strHas B (scoutFallback A B) = true :=
  ⟨scoutSearch_of_failed provider A B h,
   scoutFallback_has_marker_after_indent A B,
   scoutFallback_has_marker A B,
   scoutFallback_has_a A B,
   scoutFallback_has_b A B⟩

/-- Claim C1, witness: the amended statement at a failing provider and the
subject pair of the app defaults. -/
theorem c1_scout_fallback_spec_witness :
    scoutSearch (fun _ _ => Except.error "blocked") "Bamboo Fiber" "Cotton"
      = scoutFallback "Bamboo Fiber" "Cotton"
    ∧ strStarts ("\n            " ++ fallbackMarker) (scoutFallback "Bamboo Fiber" "Cotton") = true
    ∧ strHas fallbackMarker (scoutFallback "Bamboo Fiber" "Cotton") = true
    ∧ strHas "Bamboo Fiber" (scoutFallback "Bamboo Fiber" "Cotton") = true
    ∧ strHas "Cotton" (scoutFallback "Bamboo Fiber" "Cotton") = true :=
  c1_scout_fallback_spec (fun _ _ => Except.error "blocked") "Bamboo Fiber" "Cotton"
    (Or.inl ⟨"blocked", rfl⟩)

/-- Claim C1, counterexample to the claim as stated: the fallback evidence
does not begin with the fallback marker — a newline and twelve spaces of
f-string indentation precede it — although it does contain the marker. -/
theorem c1_counterexample :
    scoutSearch (fun _ _ => Except.error "blocked") "Silk" "Wool" = scoutFallback "Silk" "Wool"
    ∧ strStarts fallbackMarker (scoutFallback "Silk" "Wool") = false
    ∧ strHas fallbackMarker (scoutFallback "Silk" "Wool") = true := by
  refine ⟨rfl, ?_, ?_⟩ <;> decide

theorem analyze_of_no_key (api_key : String) (ai_available : Bool)
    (llm : String → Nat → String → List Message → Except String String)
    (search_data mat_a mat_b : String) (h : api_key = "" ∨ ai_available = false) :
    analyze api_key ai_available llm search_data mat_a mat_b = mockAnalysis mat_a mat_b := by
  simp only [analyze]
  rw [if_pos h]

theorem mockAnalysis_has_row_gwp (A B : String) :
    strHas ("| **Global Warming (kg CO2)** | 2.5 (Est) | 8.1 (Est) | ✅ " ++ (A ++ " Better |"))
      (mockAnalysis A B) = true := by
  simp only [mockAnalysis]
  rw [show ("** | Status |\n        | :--- | :--- | :--- | :--- |\n        | **Global Warming (kg CO2)** | 2.5 (Est) | 8.1 (Est) | ✅ " : String)
        = "** | Status |\n        | :--- | :--- | :--- | :--- |\n        " ++ "| **Global Warming (kg CO2)** | 2.5 (Est) | 8.1 (Est) | ✅ " from rfl,
      show (" Better |\n        | **Water Usage (L/kg)** | 500 | 9,000 | ✅ " : String)
        = " Better |" ++ "\n        | **Water Usage (L/kg)** | 500 | 9,000 | ✅ " from rfl]
  simp only [strAppend_assoc]
  apply strHas_append_left
  apply strHas_append_left
  apply strHas_append_left
  apply strHas_append_left
  apply strHas_append_left
  exact strHas_tail3 _ _ _ _

theorem mockAnalysis_has_row_water (A B : String) :
    strHas ("| **Water Usage (L/kg)** | 500 | 9,000 | ✅ " ++ (A ++ " Better |"))
      (mockAnalysis A B) = true := by
  simp only [mockAnalysis]
  rw [show (" Better |\n        | **Water Usage (L/kg)** | 500 | 9,000 | ✅ " : String)
        = " Better |\n        " ++ "| **Water Usage (L/kg)** | 500 | 9,000 | ✅ " from rfl,
      show (" Better |\n        | **Circular Economy** | Compostable | Landfill | ✅ " : String)
        = " Better |" ++ "\n        | **Circular Economy** | Compostable | Landfill | ✅ " from rfl]
  simp only [strAppend_assoc]
  apply strHas_append_left
  apply strHas_append_left
  apply strHas_append_left
  apply strHas_append_left
  apply strHas_append_left
  apply strHas_append_left
  apply strHas_append_left
  exact strHas_tail3 _ _ _ _

theorem mockAnalysis_has_row_circular (A B : String) :
    strHas ("| **Circular Economy** | Compostable | Landfill | ✅ " ++ (A ++ " Better |"))
      (mockAnalysis A B) = true := by
  simp only [mockAnalysis]
  rw [show (" Better |\n        | **Circular Economy** | Compostable | Landfill | ✅ " : String)
        = " Better |\n        " ++ "| **Circular Economy** | Compostable | Landfill | ✅ " from rfl,
      show (" Better |\n        \n        ### 💡 System Recommendation\n        **" : String)
        = " Better |" ++ "\n        \n        ### 💡 System Recommendation\n        **" from rfl]
  simp only [strAppend_assoc]
  apply strHas_append_left
  apply strHas_append_left
  apply strHas_append_left
  apply strHas_append_left
  apply strHas_append_left
  apply strHas_append_left
  apply strHas_append_left
  apply strHas_append_left
  apply strHas_append_left
  exact strHas_tail3 _ _ _ _

theorem mockAnalysis_has_rec_a (A B : String) :
    strHas ("**" ++ (A ++ "** is recommended.")) (mockAnalysis A B) = true := by
  simp only [mockAnalysis]
  rw [show (" Better |\n        \n        ### 💡 System Recommendation\n        **" : String)
        = " Better |\n        \n        ### 💡 System Recommendation\n        " ++ "**" from rfl,
      show ("** is recommended. The extracted data suggests it outperforms **" : String)
        = "** is recommended." ++ " The extracted data suggests it outperforms **" from rfl]
  simp only [strAppend_assoc]
  apply strHas_append_left
  apply strHas_append_left
  apply strHas_append_left
  apply strHas_append_left
  apply strHas_append_left
  apply strHas_append_left
  apply strHas_append_left
  apply strHas_append_left
  apply strHas_append_left
  apply strHas_append_left
  apply strHas_append_left
  exact strHas_tail3 _ _ _ _

/-- Claim C4: for every pair of subject names, when no credential is supplied
(or the AI libraries are unavailable), `analyze` returns the fallback
templated report — so its value is independent of the generation call and of
the evidence, i.e. no external generation call is consulted — and that report
contains the three impact-comparison table rows and a recommendation sentence
naming one of the two subjects. -/
theorem c4_analyze_fallback_spec (api_key : String) (ai_available : Bool)
    (llm llm2 : String → Nat → String → List Message → Except String String)
    (search_data search_data2 mat_a mat_b : String)
    (h : api_key = "" ∨ ai_available = false) :
    analyze api_key ai_available llm search_data mat_a mat_b = mockAnalysis mat_a mat_b
    ∧ analyze api_key ai_available llm search_data mat_a mat_b
        = analyze api_key ai_available llm2 search_data2 mat_a mat_b
    ∧ strHas ("| **Global Warming (kg CO2)** | 2.5 (Est) | 8.1 (Est) | ✅ " ++ (mat_a ++ " Better |"))
        (mockAnalysis mat_a mat_b) = true
    ∧ strHas ("| **Water Usage (L/kg)** | 500 | 9,000 | ✅ " ++ (mat_a ++ " Better |"))
        (mockAnalysis mat_a mat_b) = true
    ∧ strHas ("| **Circular Economy** | Compostable | Landfill | ✅ " ++ (mat_a ++ " Better |"))
        (mockAnalysis mat_a mat_b) = true
    ∧ (strHas ("**" ++ (mat_a ++ "** is recommended.")) (mockAnalysis mat_a mat_b) = true
       ∨ strHas ("**" ++ (mat_b ++ "** is recommended.")) (mockAnalysis mat_a mat_b) = true) :=
  ⟨analyze_of_no_key api_key ai_available llm search_data mat_a mat_b h,
   by rw [analyze_of_no_key api_key ai_available llm search_data mat_a mat_b h,
          analyze_of_no_key api_key ai_available llm2 search_data2 mat_a mat_b h],
   mockAnalysis_has_row_gwp mat_a mat_b,
   mockAnalysis_has_row_water mat_a mat_b,
   mockAnalysis_has_row_circular mat_a mat_b,
   Or.inl (mockAnalysis_has_rec_a mat_a mat_b)⟩

/-- Claim C4, witness: the fallback route at an empty key. -/
theorem c4_analyze_fallback_spec_witness :
    analyze "" true (fun _ _ _ _ => Except.ok "live") "ev" "Linen" "Nylon" = mockAnalysis "Linen" "Nylon"
    ∧ analyze "" true (fun _ _ _ _ => Except.ok "live") "ev" "Linen" "Nylon"
        = analyze "" true (fun _ _ _ _ => Except.error "down") "other" "Linen" "Nylon"
    ∧ strHas ("| **Global Warming (kg CO2)** | 2.5 (Est) | 8.1 (Est) | ✅ " ++ ("Linen" ++ " Better |"))
        (mockAnalysis "Linen" "Nylon") = true
    ∧ strHas ("| **Water Usage (L/kg)** | 500 | 9,000 | ✅ " ++ ("Linen" ++ " Better |"))
        (mockAnalysis "Linen" "Nylon") = true
    ∧ strHas ("| **Circular Economy** | Compostable | Landfill | ✅ " ++ ("Linen" ++ " Better |"))
        (mockAnalysis "Linen" "Nylon") = true
    ∧ (strHas ("**" ++ ("Linen" ++ "** is recommended.")) (mockAnalysis "Linen" "Nylon") = true
       ∨ strHas ("**" ++ ("Nylon" ++ "** is recommended.")) (mockAnalysis "Linen" "Nylon") = true) :=
  c4_analyze_fallback_spec "" true (fun _ _ _ _ => Except.ok "live")
    (fun _ _ _ _ => Except.error "down") "ev" "other" "Linen" "Nylon" (Or.inl rfl)

/-- Claim C10 (amended): for every pair of subject names, all three impact
rows of the fallback table mark subject A as better, and the recommendation
sentence also names subject A — the `winner` computed on line 87 is never
interpolated, so the recommendation never names B. -/
theorem c10_table_and_rec_favor_a (A B : String) :
    strHas ("| **Global Warming (kg CO2)** | 2.5 (Est) | 8.1 (Est) | ✅ " ++ (A ++ " Better |"))
      (mockAnalysis A B) = true
    ∧ strHas ("| **Water Usage (L/kg)** | 500 | 9,000 | ✅ " ++ (A ++ " Better |"))
        (mockAnalysis A B) = true
    ∧ strHas ("| **Circular Economy** | Compostable | Landfill | ✅ " ++ (A ++ " Better |"))
        (mockAnalysis A B) = true
    ∧ strHas ("**" ++ (A ++ "** is recommended.")) (mockAnalysis A B) = true :=
  ⟨mockAnalysis_has_row_gwp A B, mockAnalysis_has_row_water A B,
   mockAnalysis_has_row_circular A B, mockAnalysis_has_rec_a A B⟩

set_option maxRecDepth 4096 in
/-- Claim C10, counterexample to the claim as stated: at A = "Oak",
B = "Hemp" (B at least as long as A) the table rows do favor A, but the
recommendation sentence names A as well, not B as the claim asserts. -/
theorem c10_counterexample :
    "Oak".length ≤ "Hemp".length
    ∧ strHas ("| **Global Warming (kg CO2)** | 2.5 (Est) | 8.1 (Est) | ✅ " ++ ("Oak" ++ " Better |"))
        (mockAnalysis "Oak" "Hemp") = true
    ∧ strHas ("**" ++ ("Hemp" ++ "** is recommended.")) (mockAnalysis "Oak" "Hemp") = false
    ∧ strHas ("**" ++ ("Oak" ++ "** is recommended.")) (mockAnalysis "Oak" "Hemp") = true := by
  refine ⟨?_, ?_, ?_, ?_⟩ <;> decide

set_option maxRecDepth 4096 in
/-- Claim C3 (code bug): line 87 of `app.py` computes `winner`, the longer of
the two names, but the template never interpolates it — every report
recommends `mat_a`.  At A = "Silk", B = "Polyester" the computed winner is
"Polyester", yet the report recommends "Silk".  The spec's concrete instance
(A = "Bamboo Fiber", B = "Cotton") happens to agree with the code only
because there A is the longer name. -/
theorem c3_winner_unused :
    mockWinner "Silk" "Polyester" = "Polyester"
    ∧ strHas ("**" ++ ("Silk" ++ "** is recommended.")) (mockAnalysis "Silk" "Polyester") = true
    ∧ strHas ("**" ++ ("Polyester" ++ "** is recommended.")) (mockAnalysis "Silk" "Polyester") = false
    ∧ mockWinner "Bamboo Fiber" "Cotton" = "Bamboo Fiber"
    ∧ strHas ("**" ++ ("Bamboo Fiber" ++ "** is recommended.")) (mockAnalysis "Bamboo Fiber" "Cotton") = true := by
  refine ⟨?_, ?_, ?_, ?_, ?_⟩ <;> decide

set_option maxRecDepth 4096 in
/-- Claim C9 (code bug): on a length tie the `winner` of line 87 is B
(strict greater-than on the length of A), but `winner` is never interpolated
into the template, so at the equal-length pair A = "abc", B = "xyz" the
report recommends A, not B. -/
theorem c9_tie_recommends_a :
    mockWinner "abc" "xyz" = "xyz"
    ∧ "abc".length = "xyz".length
    ∧ strHas ("**" ++ ("abc" ++ "** is recommended.")) (mockAnalysis "abc" "xyz") = true
    ∧ strHas ("**" ++ ("xyz" ++ "** is recommended.")) (mockAnalysis "abc" "xyz") = false := by
  refine ⟨?_, ?_, ?_, ?_⟩ <;> decide

theorem diag_has_error_text (e : String) :
    strHas "Error in AI processing:"
      ("Error in AI processing: " ++ e ++ ". (Falling back to manual analysis...)") = true := rfl

theorem diag_starts_e (e : String) :
    strStarts "E" ("Error in AI processing: " ++ e ++ ". (Falling back to manual analysis...)") = true := rfl

theorem mockAnalysis_not_starts_e (A B : String) :
    strStarts "E" (mockAnalysis A B) = false := rfl

/-- Claim C2: with a credential present and a generation call that raises,
`analyze` does not raise (the embedding is total) and returns the short
diagnostic string — which contains the explicit error indicator — as the
final report; the templated fallback report is not what is returned. -/
theorem c2_analyze_error_spec (api_key : String)
    (llm : String → Nat → String → List Message → Except String String)
    (search_data mat_a mat_b e : String)
    (hk : api_key ≠ "")
    (hllm : ∀ m t k ms, llm m t k ms = Except.error e) :
    analyze api_key true llm search_data mat_a mat_b
      = "Error in AI processing: " ++ e ++ ". (Falling back to manual analysis...)"
    ∧ strHas "Error in AI processing:" (analyze api_key true llm search_data mat_a mat_b) = true
    ∧ analyze api_key true llm search_data mat_a mat_b ≠ mockAnalysis mat_a mat_b := by
  have ha : analyze api_key true llm search_data mat_a mat_b
      = "Error in AI processing: " ++ e ++ ". (Falling back to manual analysis...)" := by
    simp only [analyze]
    rw [if_neg (by simp [hk]), hllm]
  refine ⟨ha, ?_, ?_⟩
  · rw [ha]
    exact diag_has_error_text e
  · rw [ha]
    exact ne_of_strStarts "E" _ _ (diag_starts_e e) (mockAnalysis_not_starts_e mat_a mat_b)

/-- Claim C2, witness: a raising test double behind a concrete key. -/
theorem c2_analyze_error_spec_witness :
    analyze "sk-demo" true (fun _ _ _ _ => Except.error "rate limited") "some data" "Oak" "Ash"
      = "Error in AI processing: " ++ "rate limited" ++ ". (Falling back to manual analysis...)"
    ∧ strHas "Error in AI processing:"
        (analyze "sk-demo" true (fun _ _ _ _ => Except.error "rate limited") "some data" "Oak" "Ash") = true
    ∧ analyze "sk-demo" true (fun _ _ _ _ => Except.error "rate limited") "some data" "Oak" "Ash"
        ≠ mockAnalysis "Oak" "Ash" :=
  c2_analyze_error_spec "sk-demo" (fun _ _ _ _ => Except.error "rate limited")
    "some data" "Oak" "Ash" "rate limited" (by decide) (fun _ _ _ _ => rfl)

/-- Claim C5: with a credential present, `analyze` invokes the generation
call once — with model "gpt-4", temperature 0, the key, and the two
role-tagged messages built from the subjects and the evidence — and when that
call succeeds with text T it returns exactly T, unchanged. -/
theorem c5_analyze_live_ok (api_key : String)
    (llm : String → Nat → String → List Message → Except String String)
    (search_data mat_a mat_b T : String)
    (hk : api_key ≠ "")
    (hllm : llm "gpt-4" 0 api_key
        [Message.system systemPrompt,
         Message.human ("Compare " ++ mat_a ++ " vs " ++ mat_b ++ " using this data: " ++ search_data)]
      = Except.ok T) :
    analyze api_key true llm search_data mat_a mat_b = T := by
  simp only [analyze]
  rw [if_neg (by simp [hk]), hllm]

/-- Claim C5, witness: a succeeding test double returns its text verbatim. -/
theorem c5_analyze_live_ok_witness :
    analyze "sk-live" true (fun _ _ _ _ => Except.ok "REPORT TEXT") "ev" "Tin" "Zinc" = "REPORT TEXT" :=
  c5_analyze_live_ok "sk-live" (fun _ _ _ _ => Except.ok "REPORT TEXT") "ev" "Tin" "Zinc"
    "REPORT TEXT" (by decide) rfl

/-- Claim C6: the fallback evidence and the fallback report are pure
functions of the subject pair: under any two environments that route to the
fallback (any failing provider, any fallback-routing key/availability, any
generation double, any evidence), the outputs on the same (A, B) are equal —
hence byte-identical, string equality being equality of the character
data. -/
theorem c6_fallback_deterministic :
    (∀ (A B : String) (p1 p2 : String → Nat → Except String (List SearchResult)),
      searchFailed (p1 (scoutQuery A B) 5) → searchFailed (p2 (scoutQuery A B) 5) →
      scoutSearch p1 A B = scoutSearch p2 A B)
    ∧ (∀ (A B key1 key2 : String) (av1 av2 : Bool)
        (llm1 llm2 : String → Nat → String → List Message → Except String String)
        (d1 d2 : String),
      (key1 = "" ∨ av1 = false) → (key2 = "" ∨ av2 = false) →
      analyze key1 av1 llm1 d1 A B = analyze key2 av2 llm2 d2 A B) := by
  constructor
  · intro A B p1 p2 h1 h2
    rw [scoutSearch_of_failed p1 A B h1, scoutSearch_of_failed p2 A B h2]
  · intro A B key1 key2 av1 av2 llm1 llm2 d1 d2 h1 h2
    rw [analyze_of_no_key key1 av1 llm1 d1 A B h1, analyze_of_no_key key2 av2 llm2 d2 A B h2]

/-- Claim C6, witness: a raising provider and an empty-result provider give
the same evidence; a missing key and an unavailable AI library give the same
report, whatever the double and evidence. -/
theorem c6_fallback_deterministic_witness :
    scoutSearch (fun _ _ => Except.error "timeout") "Hemp" "Jute"
      = scoutSearch (fun _ _ => Except.ok []) "Hemp" "Jute"
    ∧ analyze "" true (fun _ _ _ _ => Except.ok "live text") "evidence one" "Hemp" "Jute"
      = analyze "sk-x" false (fun _ _ _ _ => Except.error "down") "evidence two" "Hemp" "Jute" :=
  ⟨c6_fallback_deterministic.1 "Hemp" "Jute" (fun _ _ => Except.error "timeout")
      (fun _ _ => Except.ok []) (Or.inl ⟨"timeout", rfl⟩) (Or.inr rfl),
   c6_fallback_deterministic.2 "Hemp" "Jute" "" "sk-x" true false
      (fun _ _ _ _ => Except.ok "live text") (fun _ _ _ _ => Except.error "down")
      "evidence one" "evidence two" (Or.inl rfl) (Or.inr rfl)⟩

theorem foldl_entryText (rs : List SearchResult) (acc : String) :
    rs.foldl (fun acc res => acc ++ entryText res) acc = acc ++ concatEntries rs := by
  induction rs generalizing acc with
  | nil =>
    simp only [List.foldl_nil, concatEntries]
    exact (strAppend_nil acc).symm
  | cons r rest ih =>
    simp only [List.foldl_cons, concatEntries, ih, strAppend_assoc]

theorem concatEntries_cons_ne_nil (r : SearchResult) (rest : List SearchResult) :
    concatEntries (r :: rest) ≠ "" :=
  ne_of_strStarts "S" _ _ rfl rfl

theorem entryText_has_title (r : SearchResult) :
    strHas r.title (entryText r) = true := by
  simp only [entryText, strAppend_assoc]
  apply strHas_append_left
  exact strHas_self_append _ _

theorem entryText_has_url (r : SearchResult) :
    strHas r.url (entryText r) = true := by
  simp only [entryText, strAppend_assoc]
  apply strHas_append_left
  apply strHas_append_left
  apply strHas_append_left
  exact strHas_self_append _ _

theorem entryText_has_description (r : SearchResult) :
    strHas r.description (entryText r) = true := by
  simp only [entryText, strAppend_assoc]
  apply strHas_append_left
  apply strHas_append_left
  apply strHas_append_left
  apply strHas_append_left
  apply strHas_append_left
  exact strHas_self_append _ _

/-- Claim C7: when the external search call succeeds with a non-empty result
sequence, `scoutSearch` returns `concatEntries rs` — the concatenation, in
the provider's order, of one newline-delimited entry per result — and each
entry contains its result's title, link and description verbatim. -/
theorem c7_scout_success (provider : String → Nat → Except String (List SearchResult))
    (A B : String) (rs : List SearchResult)
    (hne : rs ≠ []) (hp : provider (scoutQuery A B) 5 = Except.ok rs) :
    scoutSearch provider A B = concatEntries rs
    ∧ ∀ r : SearchResult,
        strHas r.title (entryText r) = true
        ∧ strHas r.url (entryText r) = true
        ∧ strHas r.description (entryText r) = true := by
  constructor
  · cases rs with
    | nil => exact absurd rfl hne
    | cons r rest =>
      simp only [scoutSearch, hp, foldl_entryText, strNil_append]
      rw [if_neg (concatEntries_cons_ne_nil r rest)]
  · intro r
    exact ⟨entryText_has_title r, entryText_has_url r, entryText_has_description r⟩

/-- Claim C7, witness: two concrete results, concatenated in provider
order. -/
theorem c7_scout_success_witness :
    scoutSearch
        (fun _ _ => Except.ok
          [⟨"LCA study", "http://a", "comparative data"⟩,
           ⟨"Impact report", "http://b", "water use"⟩]) "Glass" "Steel"
      = concatEntries
          [⟨"LCA study", "http://a", "comparative data"⟩,
           ⟨"Impact report", "http://b", "water use"⟩]
    ∧ ∀ r : SearchResult,
        strHas r.title (entryText r) = true
        ∧ strHas r.url (entryText r) = true
        ∧ strHas r.description (entryText r) = true :=
  c7_scout_success
    (fun _ _ => Except.ok
      [⟨"LCA study", "http://a", "comparative data"⟩,
       ⟨"Impact report", "http://b", "water use"⟩]) "Glass" "Steel"
    [⟨"LCA study", "http://a", "comparative data"⟩,
     ⟨"Impact report", "http://b", "water use"⟩]
    (List.cons_ne_nil _ _) rfl

theorem foldl_runPipeline (runs : List RunConfig) (h : List String) :
    runs.foldl (fun history c => (runPipeline history c).1) h = h ++ runs.map recordLabel := by
  induction runs generalizing h with
  | nil => simp
  | cons c rest ih =>
    rw [List.foldl_cons, ih]
    show (runPipeline h c).1 ++ _ = _
    simp [runPipeline, List.append_assoc]

/-- Claim C8: the session log is append-only and insertion-ordered — after
any sequence of pipeline invocations it holds exactly one record per
invocation, in invocation order (it is the map of `recordLabel` over the
invocations), appending one run adds exactly one record at the end and leaves
the earlier records untouched, and every record embeds its invocation's
subject pair. -/
theorem c8_session_log_spec :
    (∀ runs : List RunConfig, sessionLog runs = runs.map recordLabel)
    ∧ (∀ (runs : List RunConfig) (c : RunConfig),
        sessionLog (runs ++ [c]) = sessionLog runs ++ [recordLabel c])
    ∧ (∀ runs : List RunConfig, (sessionLog runs).length = runs.length)
    ∧ (∀ c : RunConfig, strHas (c.mat_a ++ (" vs " ++ c.mat_b)) (recordLabel c) = true) := by
  have hmap : ∀ runs : List RunConfig, sessionLog runs = runs.map recordLabel := by
    intro runs
    show runs.foldl _ [] = _
    rw [foldl_runPipeline]
    exact List.nil_append _
  refine ⟨hmap, ?_, ?_, ?_⟩
  · intro runs c
    rw [hmap, hmap, List.map_append, List.map_singleton]
  · intro runs
    rw [hmap]
    exact List.length_map _ _
  · intro c
    simp only [recordLabel, strAppend_assoc]
    apply strHas_append_left
    apply strHas_append_left
    apply strHas_append_left
    exact strHas_self _
